import Mathlib

/-!
Verification of the error-translation layer of `rust_blog`
(`src/utils/errors.rs`).

The file embeds the `ServiceError` taxonomy, the `ResponseError`
rendering, and the five `From<...> for ServiceError` conversions as
total Lean functions, then proves the testable properties of the spec
about them.  Upstream failure types (`MailboxError`, `DieselError`,
`PoolError`, `JwtError`, `HarshError`) come from external crates; they
are modelled as inductive types carrying the payloads the conversions
inspect (database-error kind and info, JWT error kind, harsh character)
and representative payload-free subkinds for the constructors the
conversions ignore.
-/

namespace RustBlog

/-- The caller-facing error taxonomy (`enum ServiceError`). -/
inductive ServiceError where
  | BadRequest : String → ServiceError
  | Unauthorized : ServiceError
  | NotFound : String → ServiceError
  | InternalServerError : String → ServiceError
deriving DecidableEq, Repr

/-- A rendered HTTP response: numeric status code plus the
JSON-serializable body.  `HttpResponse::BadRequest().json(m)` is
modelled as `⟨400, m⟩`, and so on. -/
structure HttpResponse where
  status : Nat
  body : String
deriving DecidableEq, Repr

/-- `impl ResponseError for ServiceError`: `error_response`. -/
def error_response : ServiceError → HttpResponse
  | ServiceError.InternalServerError message => ⟨500, message⟩
  | ServiceError.BadRequest message => ⟨400, message⟩
  | ServiceError.Unauthorized => ⟨401, "Unauthorized"⟩
  | ServiceError.NotFound message => ⟨404, message⟩

/-- A status code is in the client-error category (4xx). -/
def isClientError (s : Nat) : Bool := 400 ≤ s && s < 500

/-- A status code is in the server-error category (5xx). -/
def isServerError (s : Nat) : Bool := 500 ≤ s && s < 600

/-- `actix::MailboxError`: delivery to the actor failed because the
mailbox is closed/unreachable or the send timed out. -/
inductive MailboxError where
  | Closed : MailboxError
  | Timeout : MailboxError
deriving DecidableEq, Repr

/-- `impl From<MailboxError> for ServiceError` — the error value is
ignored (`_error`). -/
def ServiceError.fromMailboxError (_error : MailboxError) : ServiceError :=
  ServiceError.InternalServerError "Mailbox"

/-- `diesel::result::DatabaseErrorInformation`: the parts the
conversion reads (`message()` always present, `details()` optional). -/
structure DatabaseErrorInformation where
  message : String
  details : Option String
deriving DecidableEq, Repr

/-- `diesel::result::DatabaseErrorKind`. -/
inductive DatabaseErrorKind where
  | UniqueViolation : DatabaseErrorKind
  | ForeignKeyViolation : DatabaseErrorKind
  | UnableToSendCommand : DatabaseErrorKind
  | SerializationFailure : DatabaseErrorKind
  | Unknown : DatabaseErrorKind
deriving DecidableEq, Repr

/-- `diesel::result::Error` (aliased `DieselError`). -/
inductive DieselError where
  | InvalidCString : DieselError
  | DatabaseError : DatabaseErrorKind → DatabaseErrorInformation → DieselError
  | NotFound : DieselError
  | QueryBuilderError : String → DieselError
  | DeserializationError : String → DieselError
  | SerializationError : String → DieselError
  | RollbackTransaction : DieselError
  | AlreadyInTransaction : DieselError
deriving DecidableEq, Repr

/-- `impl From<DieselError> for ServiceError`.
`info.details().unwrap_or_else(|| info.message())` is `details.getD message`. -/
def ServiceError.fromDieselError : DieselError → ServiceError
  | DieselError.DatabaseError kind info =>
      match kind with
      | DatabaseErrorKind.UniqueViolation =>
          ServiceError.BadRequest (info.details.getD info.message)
      | _ => ServiceError.InternalServerError "database"
  | DieselError.NotFound =>
      ServiceError.NotFound "requested record was not found"
  | _ => ServiceError.InternalServerError "database"

/-- `diesel::r2d2::PoolError`: acquisition failed (pool exhausted,
timed out, or the underlying connection could not be established). -/
inductive PoolError where
  | Exhausted : PoolError
  | ConnectionTimeout : PoolError
  | ConnectionFailure : String → PoolError
deriving DecidableEq, Repr

/-- `impl From<PoolError> for ServiceError` — the error value is
ignored (`_error`). -/
def ServiceError.fromPoolError (_error : PoolError) : ServiceError :=
  ServiceError.InternalServerError "pool"

/-- `jsonwebtoken::errors::ErrorKind`. -/
inductive JwtErrorKind where
  | InvalidToken : JwtErrorKind
  | InvalidSignature : JwtErrorKind
  | InvalidEcdsaKey : JwtErrorKind
  | InvalidRsaKey : JwtErrorKind
  | ExpiredSignature : JwtErrorKind
  | InvalidIssuer : JwtErrorKind
  | InvalidAudience : JwtErrorKind
  | InvalidSubject : JwtErrorKind
  | ImmatureSignature : JwtErrorKind
  | InvalidAlgorithm : JwtErrorKind
  | Base64 : String → JwtErrorKind
  | Json : String → JwtErrorKind
  | Utf8 : String → JwtErrorKind
  | Crypto : String → JwtErrorKind
deriving DecidableEq, Repr

/-- `jsonwebtoken::errors::Error`: the conversion only reads `kind()`. -/
structure JwtError where
  kind : JwtErrorKind
deriving DecidableEq, Repr

/-- `impl From<JwtError> for ServiceError`. -/
def ServiceError.fromJwtError (error : JwtError) : ServiceError :=
  match error.kind with
  | JwtErrorKind.InvalidToken => ServiceError.BadRequest "Invalid Token"
  | JwtErrorKind.InvalidIssuer => ServiceError.BadRequest "Invalid Issuer"
  | _ => ServiceError.Unauthorized

/-- `harsh::Error`. -/
inductive HarshError where
  | AlphabetLength : HarshError
  | IllegalCharacter : Char → HarshError
  | Separator : HarshError
deriving DecidableEq, Repr

/-- `impl From<HarshError> for ServiceError`. -/
def ServiceError.fromHarshError : HarshError → ServiceError
  | HarshError.AlphabetLength =>
      ServiceError.InternalServerError "harsh AlphabetLength error"
  | HarshError.IllegalCharacter _ =>
      ServiceError.InternalServerError "harsh IllegalCharacter error"
  | HarshError.Separator =>
      ServiceError.InternalServerError "harsh Separator error"

/-- The disjoint union of the five upstream failure domains. -/
inductive UpstreamFailure where
  | mailbox : MailboxError → UpstreamFailure
  | diesel : DieselError → UpstreamFailure
  | pool : PoolError → UpstreamFailure
  | jwt : JwtError → UpstreamFailure
  | harsh : HarshError → UpstreamFailure
deriving DecidableEq, Repr

/-- The translation step: dispatch to the domain's `From` impl. -/
def translate : UpstreamFailure → ServiceError
  | UpstreamFailure.mailbox e => ServiceError.fromMailboxError e
  | UpstreamFailure.diesel e => ServiceError.fromDieselError e
  | UpstreamFailure.pool e => ServiceError.fromPoolError e
  | UpstreamFailure.jwt e => ServiceError.fromJwtError e
  | UpstreamFailure.harsh e => ServiceError.fromHarshError e

/-- The constructor tag of a JWT error kind with payloads erased. -/
inductive JwtKindTag where
  | InvalidToken | InvalidSignature | InvalidEcdsaKey | InvalidRsaKey
  | ExpiredSignature | InvalidIssuer | InvalidAudience | InvalidSubject
  | ImmatureSignature | InvalidAlgorithm | Base64 | Json | Utf8 | Crypto
deriving DecidableEq, Repr

/-- Erase the payload of a JWT error kind, keeping the constructor. -/
def JwtErrorKind.tag : JwtErrorKind → JwtKindTag
  | JwtErrorKind.InvalidToken => JwtKindTag.InvalidToken
  | JwtErrorKind.InvalidSignature => JwtKindTag.InvalidSignature
  | JwtErrorKind.InvalidEcdsaKey => JwtKindTag.InvalidEcdsaKey
  | JwtErrorKind.InvalidRsaKey => JwtKindTag.InvalidRsaKey
  | JwtErrorKind.ExpiredSignature => JwtKindTag.ExpiredSignature
  | JwtErrorKind.InvalidIssuer => JwtKindTag.InvalidIssuer
  | JwtErrorKind.InvalidAudience => JwtKindTag.InvalidAudience
  | JwtErrorKind.InvalidSubject => JwtKindTag.InvalidSubject
  | JwtErrorKind.ImmatureSignature => JwtKindTag.ImmatureSignature
  | JwtErrorKind.InvalidAlgorithm => JwtKindTag.InvalidAlgorithm
  | JwtErrorKind.Base64 _ => JwtKindTag.Base64
  | JwtErrorKind.Json _ => JwtKindTag.Json
  | JwtErrorKind.Utf8 _ => JwtKindTag.Utf8
  | JwtErrorKind.Crypto _ => JwtKindTag.Crypto

/-- The "kind" of an upstream failure: its domain and constructor, with
all embedded diagnostic payloads (info texts, characters, messages)
erased. -/
inductive UpstreamKind where
  | mailboxClosed
  | mailboxTimeout
  | dieselInvalidCString
  | dieselDatabaseError : DatabaseErrorKind → UpstreamKind
  | dieselNotFound
  | dieselQueryBuilderError
  | dieselDeserializationError
  | dieselSerializationError
  | dieselRollbackTransaction
  | dieselAlreadyInTransaction
  | poolExhausted
  | poolConnectionTimeout
  | poolConnectionFailure
  | jwtKind : JwtKindTag → UpstreamKind
  | harshAlphabetLength
  | harshIllegalCharacter
  | harshSeparator
deriving DecidableEq, Repr

/-- The kind of an upstream failure value. -/
def failureKind : UpstreamFailure → UpstreamKind
  | UpstreamFailure.mailbox MailboxError.Closed => UpstreamKind.mailboxClosed
  | UpstreamFailure.mailbox MailboxError.Timeout => UpstreamKind.mailboxTimeout
  | UpstreamFailure.diesel DieselError.InvalidCString => UpstreamKind.dieselInvalidCString
  | UpstreamFailure.diesel (DieselError.DatabaseError k _) => UpstreamKind.dieselDatabaseError k
  | UpstreamFailure.diesel DieselError.NotFound => UpstreamKind.dieselNotFound
  | UpstreamFailure.diesel (DieselError.QueryBuilderError _) => UpstreamKind.dieselQueryBuilderError
  | UpstreamFailure.diesel (DieselError.DeserializationError _) => UpstreamKind.dieselDeserializationError
  | UpstreamFailure.diesel (DieselError.SerializationError _) => UpstreamKind.dieselSerializationError
  | UpstreamFailure.diesel DieselError.RollbackTransaction => UpstreamKind.dieselRollbackTransaction
  | UpstreamFailure.diesel DieselError.AlreadyInTransaction => UpstreamKind.dieselAlreadyInTransaction
  | UpstreamFailure.pool PoolError.Exhausted => UpstreamKind.poolExhausted
  | UpstreamFailure.pool PoolError.ConnectionTimeout => UpstreamKind.poolConnectionTimeout
  | UpstreamFailure.pool (PoolError.ConnectionFailure _) => UpstreamKind.poolConnectionFailure
  | UpstreamFailure.jwt e => UpstreamKind.jwtKind e.kind.tag
  | UpstreamFailure.harsh HarshError.AlphabetLength => UpstreamKind.harshAlphabetLength
  | UpstreamFailure.harsh (HarshError.IllegalCharacter _) => UpstreamKind.harshIllegalCharacter
  | UpstreamFailure.harsh HarshError.Separator => UpstreamKind.harshSeparator

/-- The message-suppressing categories: `InternalServerError` and
`Unauthorized` (the ones for which no upstream diagnostic detail may
reach the caller). -/
def isSuppressed : ServiceError → Bool
  | ServiceError.InternalServerError _ => true
  | ServiceError.Unauthorized => true
  | _ => false

/-- When a kind translates into a suppressing category, the resulting
`ServiceError` as a function of the kind alone; `none` for kinds whose
translation is not suppressing. -/
def suppressedResult : UpstreamKind → Option ServiceError
  | UpstreamKind.mailboxClosed => some (ServiceError.InternalServerError "Mailbox")
  | UpstreamKind.mailboxTimeout => some (ServiceError.InternalServerError "Mailbox")
  | UpstreamKind.dieselInvalidCString => some (ServiceError.InternalServerError "database")
  | UpstreamKind.dieselDatabaseError DatabaseErrorKind.UniqueViolation => none
  | UpstreamKind.dieselDatabaseError _ => some (ServiceError.InternalServerError "database")
  | UpstreamKind.dieselNotFound => none
  | UpstreamKind.dieselQueryBuilderError => some (ServiceError.InternalServerError "database")
  | UpstreamKind.dieselDeserializationError => some (ServiceError.InternalServerError "database")
  | UpstreamKind.dieselSerializationError => some (ServiceError.InternalServerError "database")
  | UpstreamKind.dieselRollbackTransaction => some (ServiceError.InternalServerError "database")
  | UpstreamKind.dieselAlreadyInTransaction => some (ServiceError.InternalServerError "database")
  | UpstreamKind.poolExhausted => some (ServiceError.InternalServerError "pool")
  | UpstreamKind.poolConnectionTimeout => some (ServiceError.InternalServerError "pool")
  | UpstreamKind.poolConnectionFailure => some (ServiceError.InternalServerError "pool")
  | UpstreamKind.jwtKind JwtKindTag.InvalidToken => none
  | UpstreamKind.jwtKind JwtKindTag.InvalidIssuer => none
  | UpstreamKind.jwtKind _ => some ServiceError.Unauthorized
  | UpstreamKind.harshAlphabetLength =>
      some (ServiceError.InternalServerError "harsh AlphabetLength error")
  | UpstreamKind.harshIllegalCharacter =>
      some (ServiceError.InternalServerError "harsh IllegalCharacter error")
  | UpstreamKind.harshSeparator =>
      some (ServiceError.InternalServerError "harsh Separator error")

/-- Whether a translation lands in a suppressing category is a function
of the failure's kind alone. -/
theorem isSuppressed_translate_kind (x : UpstreamFailure) :
    isSuppressed (translate x) = (suppressedResult (failureKind x)).isSome := by
  cases x with
  | mailbox e => cases e <;> rfl
  | diesel e =>
    cases e with
    | InvalidCString => rfl
    | DatabaseError k info => cases k <;> rfl
    | NotFound => rfl
    | QueryBuilderError m => rfl
    | DeserializationError m => rfl
    | SerializationError m => rfl
    | RollbackTransaction => rfl
    | AlreadyInTransaction => rfl
  | pool e => cases e <;> rfl
  | jwt e =>
    obtain ⟨k⟩ := e
    cases k <;> rfl
  | harsh e => cases e <;> rfl

/-- A suppressed translation result is exactly the canonical value
determined by the failure's kind. -/
theorem suppressedResult_of_suppressed (x : UpstreamFailure)
    (hx : isSuppressed (translate x) = true) :
    suppressedResult (failureKind x) = some (translate x) := by
  cases x with
  | mailbox e => cases e <;> rfl
  | diesel e =>
    cases e with
    | InvalidCString => rfl
    | DatabaseError k info =>
      cases k with
      | UniqueViolation =>
        simp [translate, ServiceError.fromDieselError, isSuppressed] at hx
      | ForeignKeyViolation => rfl
      | UnableToSendCommand => rfl
      | SerializationFailure => rfl
      | Unknown => rfl
    | NotFound =>
      simp [translate, ServiceError.fromDieselError, isSuppressed] at hx
    | QueryBuilderError m => rfl
    | DeserializationError m => rfl
    | SerializationError m => rfl
    | RollbackTransaction => rfl
    | AlreadyInTransaction => rfl
  | pool e => cases e <;> rfl
  | jwt e =>
    obtain ⟨k⟩ := e
    cases k <;>
      first
        | rfl
        | simp [translate, ServiceError.fromJwtError, isSuppressed] at hx
  | harsh e => cases e <;> rfl

/-- C1 counterexample: the claim that translating a mailbox failure
yields `InternalServerError("mailbox")` with exactly that tag string is
false — at `MailboxError.Timeout` the code produces the tag "Mailbox"
(capital M), not "mailbox". -/
theorem mailbox_tag_counterexample :
    ServiceError.fromMailboxError MailboxError.Timeout ≠
      ServiceError.InternalServerError "mailbox" := by
  decide

/-- C1 (amended): for every messaging (actor mailbox) failure value,
regardless of its subkind, translation yields
`InternalServerError("Mailbox")` with exactly that tag string. -/
theorem mailbox_translation_fixed_tag (e : MailboxError) :
    ServiceError.fromMailboxError e = ServiceError.InternalServerError "Mailbox" :=
  rfl

/-- C2: noninterference of suppressed diagnostics — whenever a
translation result is `InternalServerError` or `Unauthorized`, it is a
function of the upstream failure's kind alone: two upstream failures of
the same kind (hence possibly differing only in embedded diagnostic
content) translate to identical `ServiceError` values. -/
theorem suppressed_noninterference (x y : UpstreamFailure)
    (hk : failureKind x = failureKind y)
    (hx : isSuppressed (translate x) = true) :
    translate x = translate y := by
  have hy : isSuppressed (translate y) = true := by
    rw [isSuppressed_translate_kind] at hx ⊢
    rw [← hk]
    exact hx
  have h1 := suppressedResult_of_suppressed x hx
  have h2 := suppressedResult_of_suppressed y hy
  rw [hk] at h1
  rw [h1] at h2
  exact Option.some.inj h2

/-- Witness for C2: two harsh illegal-character failures with different
embedded characters translate identically. -/
theorem suppressed_noninterference_witness :
    translate (UpstreamFailure.harsh (HarshError.IllegalCharacter 'a')) =
      translate (UpstreamFailure.harsh (HarshError.IllegalCharacter 'b')) :=
  suppressed_noninterference
    (UpstreamFailure.harsh (HarshError.IllegalCharacter 'a'))
    (UpstreamFailure.harsh (HarshError.IllegalCharacter 'b'))
    rfl rfl

/-- C3: a data-store uniqueness violation becomes `BadRequest` carrying
the detail text when present, else the generic message text. -/
theorem unique_violation_badrequest (message detail : String) :
    ServiceError.fromDieselError
        (DieselError.DatabaseError DatabaseErrorKind.UniqueViolation
          ⟨message, some detail⟩) =
      ServiceError.BadRequest detail ∧
    ServiceError.fromDieselError
        (DieselError.DatabaseError DatabaseErrorKind.UniqueViolation
          ⟨message, none⟩) =
      ServiceError.BadRequest message :=
  ⟨rfl, rfl⟩

/-- C4: token failures of kind invalid-token yield
`BadRequest("Invalid Token")`, kind invalid-issuer yields
`BadRequest("Invalid Issuer")`, and every other kind yields
`Unauthorized` (which carries no message). -/
theorem jwt_translation (e : JwtError) :
    ServiceError.fromJwtError ⟨JwtErrorKind.InvalidToken⟩ =
      ServiceError.BadRequest "Invalid Token" ∧
    ServiceError.fromJwtError ⟨JwtErrorKind.InvalidIssuer⟩ =
      ServiceError.BadRequest "Invalid Issuer" ∧
    (e.kind ≠ JwtErrorKind.InvalidToken → e.kind ≠ JwtErrorKind.InvalidIssuer →
      ServiceError.fromJwtError e = ServiceError.Unauthorized) := by
  refine ⟨rfl, rfl, ?_⟩
  intro h1 h2
  obtain ⟨k⟩ := e
  cases k <;> first | rfl | simp_all

/-- Witness for C4: an expired-signature token failure is neither of the
two special kinds and yields `Unauthorized`. -/
theorem jwt_translation_witness :
    ServiceError.fromJwtError ⟨JwtErrorKind.ExpiredSignature⟩ =
      ServiceError.Unauthorized :=
  (jwt_translation ⟨JwtErrorKind.ExpiredSignature⟩).2.2 (by decide) (by decide)

/-- C5: every data-store failure that is neither a uniqueness-constraint
violation nor the not-found condition translates to
`InternalServerError("database")` with exactly that fixed tag. -/
theorem other_diesel_internal (e : DieselError)
    (hnf : e ≠ DieselError.NotFound)
    (huv : ∀ info, e ≠ DieselError.DatabaseError DatabaseErrorKind.UniqueViolation info) :
    ServiceError.fromDieselError e = ServiceError.InternalServerError "database" := by
  cases e with
  | InvalidCString => rfl
  | DatabaseError k info =>
    cases k with
    | UniqueViolation => exact absurd rfl (huv info)
    | ForeignKeyViolation => rfl
    | UnableToSendCommand => rfl
    | SerializationFailure => rfl
    | Unknown => rfl
  | NotFound => exact absurd rfl hnf
  | QueryBuilderError m => rfl
  | DeserializationError m => rfl
  | SerializationError m => rfl
  | RollbackTransaction => rfl
  | AlreadyInTransaction => rfl

/-- Witness for C5: a rollback-transaction failure translates to
`InternalServerError("database")`. -/
theorem other_diesel_internal_witness :
    ServiceError.fromDieselError DieselError.RollbackTransaction =
      ServiceError.InternalServerError "database" :=
  other_diesel_internal DieselError.RollbackTransaction (by decide)
    (fun _ h => DieselError.noConfusion h)

/-- C6: the data-store not-found failure translates to `NotFound` with
exactly the fixed message "requested record was not found". -/
theorem diesel_notfound_message :
    ServiceError.fromDieselError DieselError.NotFound =
      ServiceError.NotFound "requested record was not found" :=
  rfl

/-- C7: rendering is determined by the variant — `BadRequest(msg)`
renders with the malformed-request client-error status (400) and body
`msg`; `Unauthorized` with the authentication-required client-error
status (401) and the fixed body "Unauthorized"; `NotFound(msg)` with the
resource-absent client-error status (404) and body `msg`; and
`InternalServerError(msg)` with the server-error status (500) and body
`msg`. -/
theorem error_response_rendering (msg : String) :
    (error_response (ServiceError.BadRequest msg) = ⟨400, msg⟩ ∧
      isClientError (error_response (ServiceError.BadRequest msg)).status = true) ∧
    (error_response ServiceError.Unauthorized = ⟨401, "Unauthorized"⟩ ∧
      isClientError (error_response ServiceError.Unauthorized).status = true) ∧
    (error_response (ServiceError.NotFound msg) = ⟨404, msg⟩ ∧
      isClientError (error_response (ServiceError.NotFound msg)).status = true) ∧
    (error_response (ServiceError.InternalServerError msg) = ⟨500, msg⟩ ∧
      isServerError (error_response (ServiceError.InternalServerError msg)).status = true) :=
  ⟨⟨rfl, rfl⟩, ⟨rfl, rfl⟩, ⟨rfl, rfl⟩, ⟨rfl, rfl⟩⟩

/-- C8: translation followed by rendering is total (a response value
exists for every upstream failure, with no partiality anywhere in the
pipeline) and deterministic (equal inputs give identical outputs). -/
theorem translate_render_total (x y : UpstreamFailure) (h : x = y) :
    (∃ r : HttpResponse, error_response (translate x) = r) ∧
    error_response (translate x) = error_response (translate y) :=
  ⟨⟨error_response (translate x), rfl⟩, by rw [h]⟩

/-- Witness for C8, at the delicate input: a uniqueness violation whose
detail text is absent still renders without faulting. -/
theorem translate_render_total_witness :
    (∃ r : HttpResponse,
        error_response (translate (UpstreamFailure.diesel
          (DieselError.DatabaseError DatabaseErrorKind.UniqueViolation
            ⟨"duplicate key value violates unique constraint", none⟩))) = r) ∧
    error_response (translate (UpstreamFailure.diesel
        (DieselError.DatabaseError DatabaseErrorKind.UniqueViolation
          ⟨"duplicate key value violates unique constraint", none⟩))) =
      error_response (translate (UpstreamFailure.diesel
        (DieselError.DatabaseError DatabaseErrorKind.UniqueViolation
          ⟨"duplicate key value violates unique constraint", none⟩))) :=
  translate_render_total
    (UpstreamFailure.diesel
      (DieselError.DatabaseError DatabaseErrorKind.UniqueViolation
        ⟨"duplicate key value violates unique constraint", none⟩))
    (UpstreamFailure.diesel
      (DieselError.DatabaseError DatabaseErrorKind.UniqueViolation
        ⟨"duplicate key value violates unique constraint", none⟩))
    rfl

/-- C9: every pool-acquisition failure, regardless of subkind,
translates to `InternalServerError("pool")` with exactly that tag. -/
theorem pool_translation_fixed_tag (e : PoolError) :
    ServiceError.fromPoolError e = ServiceError.InternalServerError "pool" :=
  rfl

/-- C10: each of the three harsh failure kinds translates to an
`InternalServerError` with a fixed kind-specific tag, and the three tags
are pairwise distinct. -/
theorem harsh_translation_distinct_tags (c : Char) :
    ServiceError.fromHarshError HarshError.AlphabetLength =
      ServiceError.InternalServerError "harsh AlphabetLength error" ∧
    ServiceError.fromHarshError (HarshError.IllegalCharacter c) =
      ServiceError.InternalServerError "harsh IllegalCharacter error" ∧
    ServiceError.fromHarshError HarshError.Separator =
      ServiceError.InternalServerError "harsh Separator error" ∧
    ServiceError.fromHarshError HarshError.AlphabetLength ≠
      ServiceError.fromHarshError (HarshError.IllegalCharacter c) ∧
    ServiceError.fromHarshError HarshError.AlphabetLength ≠
      ServiceError.fromHarshError HarshError.Separator ∧
    ServiceError.fromHarshError (HarshError.IllegalCharacter c) ≠
      ServiceError.fromHarshError HarshError.Separator := by
  refine ⟨rfl, rfl, rfl, ?_, ?_, ?_⟩
  · show ServiceError.InternalServerError "harsh AlphabetLength error" ≠
      ServiceError.InternalServerError "harsh IllegalCharacter error"
    decide
  · decide
  · show ServiceError.InternalServerError "harsh IllegalCharacter error" ≠
      ServiceError.InternalServerError "harsh Separator error"
    decide

end RustBlog
